import Mathlib

/-!
Shallow embedding of the SLA Metrics Engine of the MeuChapa Support Hub
(`src/pages/Analytics.tsx`): SLA target lookup, per-ticket SLA evaluation,
date-range filtering, per-analyst aggregation and overall statistics.

Timestamps are modelled as milliseconds since the epoch (`Int`), mirroring
JavaScript `Date` values.  JavaScript numbers appearing in averages and
percentages are modelled as rationals (`ℚ`).  Nullable fields are `Option`s;
JavaScript truthiness checks on strings (where the empty string is falsy)
are modelled explicitly.
-/

namespace MeuChapa

/-- The two SLA metric kinds, `'response' | 'resolution'` in the source. -/
inductive MetricKind
  | response
  | resolution
deriving DecidableEq, Repr

/-- The ticket record consumed by the analytics page (`TicketWithTimes`):
`created_at` is the creation instant, `first_response_at` / `closed_at` the
nullable milestone instants, `assigned_to` the nullable analyst id,
`priority` the nullable priority string, and `full_name` the display name
resolved from the joined `profiles` row. -/
structure Ticket where
  id : String
  created_at : Int
  first_response_at : Option Int
  closed_at : Option Int
  assigned_to : Option String
  priority : Option String
  full_name : Option String
deriving DecidableEq, Repr

/-- JavaScript truthiness of a nullable string: `null` and `""` are falsy. -/
def strTruthy : Option String → Bool
  | none => false
  | some s => s != ""

/-- `differenceInMinutes(later, earlier)` from date-fns: whole minutes between
two instants, truncated toward zero (`Math.trunc((later - earlier)/60000)`). -/
def differenceInMinutes (laterMs earlierMs : Int) : Int :=
  (laterMs - earlierMs).tdiv 60000

/-- The `SLA_TARGETS.response` object of `Analytics.tsx`.  Its keys are
`urgent`, `high`, `medium`, `low`; any other key reads as `undefined`. -/
def slaResponseTarget (p : String) : Option Nat :=
  if p = "urgent" then some 30
  else if p = "high" then some 60
  else if p = "medium" then some 240
  else if p = "low" then some 480
  else none

/-- The `SLA_TARGETS.resolution` object of `Analytics.tsx`. -/
def slaResolutionTarget (p : String) : Option Nat :=
  if p = "urgent" then some 240
  else if p = "high" then some 480
  else if p = "medium" then some 1440
  else if p = "low" then some 2880
  else none

/-- `getSlaTarget(priority, type)`: coerce a falsy priority to `'medium'`,
look the key up in the table for the metric kind, and fall back to the
`medium` entry when the lookup is `undefined` (all stored values are
nonzero, so JavaScript `||` coincides with `Option.getD`). -/
def getSlaTarget (priority : Option String) (kind : MetricKind) : Nat :=
  let p := match priority with
    | none => "medium"
    | some s => if s = "" then "medium" else s
  match kind with
  | .response => (slaResponseTarget p).getD 240
  | .resolution => (slaResolutionTarget p).getD 1440

/-- `isWithinSla(ticket, type)`: `null` when the relevant milestone is
missing, otherwise whether the elapsed minutes from creation to the
milestone are within the target. -/
def isWithinSla (t : Ticket) (kind : MetricKind) : Option Bool :=
  let target := getSlaTarget t.priority kind
  match kind with
  | .response =>
    match t.first_response_at with
    | none => none
    | some r => some (decide (differenceInMinutes r t.created_at ≤ (target : Int)))
  | .resolution =>
    match t.closed_at with
    | none => none
    | some c => some (decide (differenceInMinutes c t.created_at ≤ (target : Int)))

/-- The per-analyst record (`AnalystMetrics` in the source). -/
structure AnalystMetrics where
  analyst_id : String
  analyst_name : String
  total_tickets : Nat
  avg_response_time : ℚ
  avg_resolution_time : ℚ
  resolved_tickets : Nat
  sla_response_compliance : ℚ
  sla_resolution_compliance : ℚ
deriving DecidableEq, Repr

/-- The default record a first-seen analyst starts from
(`metricsMap.get(..) || { ... }`); `full_name || 'Desconhecido'`. -/
def emptyMetrics (aid : String) (name : Option String) : AnalystMetrics where
  analyst_id := aid
  analyst_name := match name with
    | none => "Desconhecido"
    | some s => if s = "" then "Desconhecido" else s
  total_tickets := 0
  avg_response_time := 0
  avg_resolution_time := 0
  resolved_tickets := 0
  sla_response_compliance := 0
  sla_resolution_compliance := 0

/-- The body of the first pass of `calculateAnalystMetrics` for one ticket:
`total_tickets++`; when a first response exists, fold its elapsed minutes
into the running response mean dividing by the (already incremented)
`total_tickets`; when a closure exists, `resolved_tickets++` and fold the
elapsed minutes into the running resolution mean dividing by the (already
incremented) `resolved_tickets`. -/
def updateMetrics (t : Ticket) (m0 : AnalystMetrics) : AnalystMetrics :=
  let m1 := { m0 with total_tickets := m0.total_tickets + 1 }
  let m2 :=
    match t.first_response_at with
    | none => m1
    | some r =>
      { m1 with avg_response_time :=
          (m1.avg_response_time * ((m1.total_tickets : ℚ) - 1) +
              ((differenceInMinutes r t.created_at : Int) : ℚ)) /
            (m1.total_tickets : ℚ) }
  match t.closed_at with
  | none => m2
  | some c =>
    let m3 := { m2 with resolved_tickets := m2.resolved_tickets + 1 }
    { m3 with avg_resolution_time :=
        (m3.avg_resolution_time * ((m3.resolved_tickets : ℚ) - 1) +
            ((differenceInMinutes c t.created_at : Int) : ℚ)) /
          (m3.resolved_tickets : ℚ) }

/-- One step of the first pass of `calculateAnalystMetrics`: skip tickets
with a falsy `assigned_to` (`if (!ticket.assigned_to) return`); otherwise
update the existing entry in place (a JavaScript `Map` keeps the position
of an existing key) or append a fresh entry (a new key goes to the end). -/
def insertTicket (acc : List AnalystMetrics) (t : Ticket) : List AnalystMetrics :=
  match t.assigned_to with
  | none => acc
  | some aid =>
    if aid = "" then acc
    else if acc.any (fun m => m.analyst_id == aid) then
      acc.map (fun m => if m.analyst_id == aid then updateMetrics t m else m)
    else
      acc ++ [updateMetrics t (emptyMetrics aid t.full_name)]

/-- `tickets.filter(t => t.first_response_at)` (timestamps are never the
empty string, so truthiness is `isSome`). -/
def ticketsWithResponse (l : List Ticket) : List Ticket :=
  l.filter (fun t => t.first_response_at.isSome)

/-- `ticketsWithResponse.filter(t => isWithinSla(t, 'response'))`; the
verdict `null` is falsy, so only `true` verdicts pass. -/
def ticketsWithinResponseSla (l : List Ticket) : List Ticket :=
  (ticketsWithResponse l).filter (fun t => isWithinSla t .response == some true)

/-- `tickets.filter(t => t.closed_at)`. -/
def ticketsResolved (l : List Ticket) : List Ticket :=
  l.filter (fun t => t.closed_at.isSome)

/-- `ticketsResolved.filter(t => isWithinSla(t, 'resolution'))`. -/
def ticketsWithinResolutionSla (l : List Ticket) : List Ticket :=
  (ticketsResolved l).filter (fun t => isWithinSla t .resolution == some true)

/-- The response-compliance percentage pattern used for both the overall
stats and each analyst: `count > 0 ? (within/count) * 100 : 0`. -/
def responseCompliancePct (l : List Ticket) : ℚ :=
  if 0 < (ticketsWithResponse l).length then
    ((ticketsWithinResponseSla l).length : ℚ) / ((ticketsWithResponse l).length : ℚ) * 100
  else 0

/-- The resolution-compliance percentage pattern. -/
def resolutionCompliancePct (l : List Ticket) : ℚ :=
  if 0 < (ticketsResolved l).length then
    ((ticketsWithinResolutionSla l).length : ℚ) / ((ticketsResolved l).length : ℚ) * 100
  else 0

/-- `ticketsData.filter(t => t.assigned_to === analyst.analyst_id)`. -/
def analystTicketsOf (l : List Ticket) (aid : String) : List Ticket :=
  l.filter (fun t => t.assigned_to == some aid)

/-- The second pass of `calculateAnalystMetrics` for one analyst record:
recompute both compliance percentages over that analyst's tickets. -/
def complianceFor (ticketsData : List Ticket) (m : AnalystMetrics) : AnalystMetrics :=
  let analystTickets := analystTicketsOf ticketsData m.analyst_id
  { m with
    sla_response_compliance := responseCompliancePct analystTickets
    sla_resolution_compliance := resolutionCompliancePct analystTickets }

/-- `calculateAnalystMetrics(ticketsData)`: fold every ticket into the
per-analyst map (insertion order preserved), then map the compliance pass
over the collected records. -/
def calculateAnalystMetrics (ticketsData : List Ticket) : List AnalystMetrics :=
  (ticketsData.foldl insertTicket []).map (complianceFor ticketsData)

/-- The overall statistics record (`overallStats` in the source). -/
structure OverallStats where
  totalTickets : Nat
  respondedTickets : Nat
  resolvedTickets : Nat
  avgResponseTime : ℚ
  avgResolutionTime : ℚ
deriving DecidableEq, Repr

/-- The `reduce` summing response minutes over tickets that have a first
response (others contribute their accumulator unchanged). -/
def responseSum (l : List Ticket) : ℚ :=
  l.foldl (fun acc t =>
    match t.first_response_at with
    | some r => acc + ((differenceInMinutes r t.created_at : Int) : ℚ)
    | none => acc) 0

/-- The `reduce` summing resolution minutes over closed tickets. -/
def resolutionSum (l : List Ticket) : ℚ :=
  l.foldl (fun acc t =>
    match t.closed_at with
    | some c => acc + ((differenceInMinutes c t.created_at : Int) : ℚ)
    | none => acc) 0

/-- `overallStats`: counts over the role-visible assigned tickets, with the
averages dividing by `count || 1` to guard the empty case. -/
def overallStats (assignedTickets : List Ticket) : OverallStats where
  totalTickets := assignedTickets.length
  respondedTickets := (ticketsWithResponse assignedTickets).length
  resolvedTickets := (ticketsResolved assignedTickets).length
  avgResponseTime := responseSum assignedTickets /
    ((if (ticketsWithResponse assignedTickets).length = 0 then 1
      else (ticketsWithResponse assignedTickets).length : Nat) : ℚ)
  avgResolutionTime := resolutionSum assignedTickets /
    ((if (ticketsResolved assignedTickets).length = 0 then 1
      else (ticketsResolved assignedTickets).length : Nat) : ℚ)

/-- The visibility predicate of the `assignedTickets` memo: drop falsy
`assigned_to`; an admin sees the selected analyst's tickets (or all of them
under the sentinel `'all'`); any other role sees only tickets assigned to
the caller's own profile id. -/
def roleVisible (role selectedAnalyst : String) (callerId : Option String)
    (t : Ticket) : Bool :=
  if !(strTruthy t.assigned_to) then false
  else if role == "admin" then
    if selectedAnalyst != "all" then t.assigned_to == some selectedAnalyst
    else true
  else t.assigned_to == callerId

/-- `tickets.filter(..)` with the role-visibility predicate. -/
def roleFilter (role selectedAnalyst : String) (callerId : Option String)
    (l : List Ticket) : List Ticket :=
  l.filter (roleVisible role selectedAnalyst callerId)

/-- The combined output of one analytics computation. -/
structure AggregateResult where
  overall : OverallStats
  responseCompliance : ℚ
  resolutionCompliance : ℚ
  perAnalyst : List AnalystMetrics
deriving DecidableEq, Repr

/-- The composite computation of `Analytics.tsx` on the date-filtered
ticket list: `perAnalyst` is `calculateAnalystMetrics` over the tickets
with non-null `assigned_to` (no role restriction is applied on this path),
while the overall stats and compliance percentages are computed over the
role-visible tickets. -/
def aggregate (filteredTickets : List Ticket) (role selectedAnalyst : String)
    (callerId : Option String) : AggregateResult :=
  let assignedAll := filteredTickets.filter (fun t => t.assigned_to.isSome)
  let visible := roleFilter role selectedAnalyst callerId filteredTickets
  { overall := overallStats visible
    responseCompliance := responseCompliancePct visible
    resolutionCompliance := resolutionCompliancePct visible
    perAnalyst := calculateAnalystMetrics assignedAll }

/-- `startDate.setUTCHours(0, 0, 0, 0)` on a date that is already a UTC
calendar-day start: millisecond instant of 00:00:00.000 UTC of day `day`
(days counted from the epoch). -/
def startOfDayUtcMs (day : Int) : Int := day * 86400000

/-- `endDate.setUTCHours(23, 59, 59, 999)`: millisecond instant of
23:59:59.999 UTC of day `day`. -/
def endOfDayUtcMs (day : Int) : Int := day * 86400000 + 86399999

/-- The date-range filter: retain a ticket iff its `created_at` lies
between the normalized window bounds, inclusive on both ends. -/
def filterByCreationWindow (l : List Ticket) (startDay endDay : Int) : List Ticket :=
  l.filter (fun t =>
    decide (startOfDayUtcMs startDay ≤ t.created_at) &&
    decide (t.created_at ≤ endOfDayUtcMs endDay))

/-- The overall stats as the page renders them: date filter, then role
visibility, then `overallStats`. -/
def analyticsOverall (allTickets : List Ticket) (startDay endDay : Int)
    (role selectedAnalyst : String) (callerId : Option String) : OverallStats :=
  overallStats
    (roleFilter role selectedAnalyst callerId
      (filterByCreationWindow allTickets startDay endDay))

/-- The invariant each accumulated per-analyst record keeps with respect to
the ticket list `L` it was folded from. -/
def MetricsInv (L : List Ticket) (m : AnalystMetrics) : Prop :=
  1 ≤ m.total_tickets ∧
  m.resolved_tickets ≤ m.total_tickets ∧
  m.analyst_id ≠ "" ∧
  ∃ t ∈ L, t.assigned_to = some m.analyst_id

/-- Spec Scenario B: a `critical` ticket created at 2024-01-01T00:00:00Z
(epoch ms 1704067200000) whose first response came one hour later. -/
def scenarioB : Ticket where
  id := "B"
  created_at := 1704067200000
  first_response_at := some 1704070800000
  closed_at := none
  assigned_to := some "x"
  priority := some "critical"
  full_name := none

/-- A ticket assigned to analyst `alice` with no milestones yet. -/
def tAlice : Ticket where
  id := "ta"
  created_at := 0
  first_response_at := none
  closed_at := none
  assigned_to := some "alice"
  priority := none
  full_name := none

/-- A ticket assigned to analyst `bob` with no milestones yet. -/
def tBob : Ticket where
  id := "tb"
  created_at := 0
  first_response_at := none
  closed_at := none
  assigned_to := some "bob"
  priority := none
  full_name := none

/-- A ticket assigned to `alice`, responded after 10 minutes and closed
after 20 minutes. -/
def tAliceDone : Ticket where
  id := "td"
  created_at := 0
  first_response_at := some 600000
  closed_at := some 1200000
  assigned_to := some "alice"
  priority := some "high"
  full_name := some "Alice"

/-- A ticket whose first response predates its creation by one hour. -/
def tBackwards : Ticket where
  id := "tn"
  created_at := 3600000
  first_response_at := some 0
  closed_at := none
  assigned_to := some "alice"
  priority := none
  full_name := none

/-- A concrete per-analyst record used to instantiate universally
quantified statements in witnesses. -/
def mSample : AnalystMetrics where
  analyst_id := "alice"
  analyst_name := "Alice"
  total_tickets := 2
  avg_response_time := 5
  avg_resolution_time := 7
  resolved_tickets := 1
  sla_response_compliance := 0
  sla_resolution_compliance := 0

/-! Helper lemmas about one `updateMetrics` step. -/

theorem updateMetrics_analyst_id (t : Ticket) (m : AnalystMetrics) :
    (updateMetrics t m).analyst_id = m.analyst_id := by
  unfold updateMetrics
  cases t.first_response_at <;> cases t.closed_at <;> rfl

theorem updateMetrics_total (t : Ticket) (m : AnalystMetrics) :
    (updateMetrics t m).total_tickets = m.total_tickets + 1 := by
  unfold updateMetrics
  cases t.first_response_at <;> cases t.closed_at <;> rfl

theorem updateMetrics_resolved_of_some (t : Ticket) (m : AnalystMetrics)
    (c : Int) (h : t.closed_at = some c) :
    (updateMetrics t m).resolved_tickets = m.resolved_tickets + 1 := by
  unfold updateMetrics
  cases t.first_response_at <;> simp [h]

theorem updateMetrics_resolved_of_none (t : Ticket) (m : AnalystMetrics)
    (h : t.closed_at = none) :
    (updateMetrics t m).resolved_tickets = m.resolved_tickets := by
  unfold updateMetrics
  cases t.first_response_at <;> simp [h]

theorem updateMetrics_avg_response_of_some (t : Ticket) (m : AnalystMetrics)
    (r : Int) (h : t.first_response_at = some r) :
    (updateMetrics t m).avg_response_time =
      (m.avg_response_time * (m.total_tickets : ℚ) +
          ((differenceInMinutes r t.created_at : Int) : ℚ)) /
        ((m.total_tickets : ℚ) + 1) := by
  unfold updateMetrics
  cases t.closed_at <;> simp [h]

theorem updateMetrics_avg_response_of_none (t : Ticket) (m : AnalystMetrics)
    (h : t.first_response_at = none) :
    (updateMetrics t m).avg_response_time = m.avg_response_time := by
  unfold updateMetrics
  cases t.closed_at <;> simp [h]

theorem updateMetrics_avg_resolution_of_some (t : Ticket) (m : AnalystMetrics)
    (c : Int) (h : t.closed_at = some c) :
    (updateMetrics t m).avg_resolution_time =
      (m.avg_resolution_time * (m.resolved_tickets : ℚ) +
          ((differenceInMinutes c t.created_at : Int) : ℚ)) /
        ((m.resolved_tickets : ℚ) + 1) := by
  unfold updateMetrics
  cases t.first_response_at <;> simp [h]

theorem updateMetrics_avg_resolution_of_none (t : Ticket) (m : AnalystMetrics)
    (h : t.closed_at = none) :
    (updateMetrics t m).avg_resolution_time = m.avg_resolution_time := by
  unfold updateMetrics
  cases t.first_response_at <;> simp [h]

/-- Claim C1: evaluation of the code at the claim's own scenario.  The
`SLA_TARGETS` table of `Analytics.tsx` has no `critical` key, so a
`critical` ticket falls back to the `medium` targets (240 response / 1440
resolution minutes, not 30 / 240), and the Scenario B ticket — created
2024-01-01T00:00:00Z with its first response at 2024-01-01T01:00:00Z — has
elapsed 60 minutes within the 240-minute fallback target, so
`isWithinSla(response)` is `true`, not `false` as the claim states. -/
theorem c1_critical_priority_uses_medium_fallback :
    getSlaTarget (some "critical") .response = 240 ∧
    getSlaTarget (some "critical") .resolution = 1440 ∧
    differenceInMinutes 1704070800000 1704067200000 = 60 ∧
    isWithinSla scenarioB .response = some true := by
  refine ⟨by decide, by decide, by decide, ?_⟩
  decide

/-- Claim C5: any priority string that is not one of the recognized table
keys `urgent`, `high`, `medium`, `low` yields the `medium` target for both
metric kinds: 240 minutes for response and 1440 for resolution. -/
theorem c5_unrecognized_priority_falls_back_to_medium (p : String)
    (h1 : p ≠ "urgent") (h2 : p ≠ "high") (h3 : p ≠ "medium") (h4 : p ≠ "low") :
    getSlaTarget (some p) .response = 240 ∧
    getSlaTarget (some p) .resolution = 1440 := by
  by_cases hp : p = ""
  · subst hp
    exact ⟨by decide, by decide⟩
  · constructor <;>
      simp [getSlaTarget, slaResponseTarget, slaResolutionTarget, hp, h1, h2, h3, h4]

/-- Witness for C5 at the concrete unrecognized priority `"foo"`. -/
theorem c5_witness :
    getSlaTarget (some "foo") .response = 240 ∧
    getSlaTarget (some "foo") .resolution = 1440 :=
  c5_unrecognized_priority_falls_back_to_medium "foo"
    (by decide) (by decide) (by decide) (by decide)

/-- Claim C4: one fold step of the per-analyst pass advances the cumulative
ticket index `total_tickets` on every ticket; when the ticket has a first
response the running response mean becomes
`(oldMean*(n-1) + sample)/n` with `n` the new cumulative index, and is
left untouched otherwise; the resolution mean is accumulated the same way
but with the running `resolved_tickets` count as denominator. -/
theorem c4_running_mean_uses_cumulative_index (t : Ticket) (m : AnalystMetrics) :
    (updateMetrics t m).total_tickets = m.total_tickets + 1 ∧
    (∀ r, t.first_response_at = some r →
      (updateMetrics t m).avg_response_time =
        (m.avg_response_time * (m.total_tickets : ℚ) +
            ((differenceInMinutes r t.created_at : Int) : ℚ)) /
          ((m.total_tickets : ℚ) + 1)) ∧
    (t.first_response_at = none →
      (updateMetrics t m).avg_response_time = m.avg_response_time) ∧
    (∀ c, t.closed_at = some c →
      (updateMetrics t m).resolved_tickets = m.resolved_tickets + 1 ∧
      (updateMetrics t m).avg_resolution_time =
        (m.avg_resolution_time * (m.resolved_tickets : ℚ) +
            ((differenceInMinutes c t.created_at : Int) : ℚ)) /
          ((m.resolved_tickets : ℚ) + 1)) ∧
    (t.closed_at = none →
      (updateMetrics t m).resolved_tickets = m.resolved_tickets ∧
      (updateMetrics t m).avg_resolution_time = m.avg_resolution_time) :=
  ⟨updateMetrics_total t m,
   fun r hr => updateMetrics_avg_response_of_some t m r hr,
   fun hr => updateMetrics_avg_response_of_none t m hr,
   fun c hc => ⟨updateMetrics_resolved_of_some t m c hc,
     updateMetrics_avg_resolution_of_some t m c hc⟩,
   fun hc => ⟨updateMetrics_resolved_of_none t m hc,
     updateMetrics_avg_resolution_of_none t m hc⟩⟩

/-- Witness for C4 at a concrete responded-and-closed ticket folded into a
concrete running record. -/
theorem c4_witness :
    (updateMetrics tAliceDone mSample).total_tickets = mSample.total_tickets + 1 ∧
    (updateMetrics tAliceDone mSample).avg_response_time =
      (mSample.avg_response_time * (mSample.total_tickets : ℚ) +
          ((differenceInMinutes 600000 tAliceDone.created_at : Int) : ℚ)) /
        ((mSample.total_tickets : ℚ) + 1) ∧
    (updateMetrics tAliceDone mSample).resolved_tickets = mSample.resolved_tickets + 1 ∧
    (updateMetrics tAliceDone mSample).avg_resolution_time =
      (mSample.avg_resolution_time * (mSample.resolved_tickets : ℚ) +
          ((differenceInMinutes 1200000 tAliceDone.created_at : Int) : ℚ)) /
        ((mSample.resolved_tickets : ℚ) + 1) := by
  have h := c4_running_mean_uses_cumulative_index tAliceDone mSample
  exact ⟨h.1, h.2.1 600000 rfl, (h.2.2.2.1 1200000 rfl).1, (h.2.2.2.1 1200000 rfl).2⟩

/-- Truncating division of a nonpositive number by a nonnegative one is
nonpositive. -/
theorem tdiv_nonpos_of_nonpos_of_nonneg (a b : Int) (ha : a ≤ 0) (hb : 0 ≤ b) :
    a.tdiv b ≤ 0 := by
  have h1 : (-a).tdiv b = -(a.tdiv b) := Int.neg_tdiv a b
  have h2 : (-a).tdiv b = (-a) / b := Int.tdiv_eq_ediv (by omega) hb
  have h3 : 0 ≤ (-a) / b := Int.ediv_nonneg (by omega) hb
  omega

/-- Claim C9: a ticket whose first response precedes its creation is not
rejected anywhere: the elapsed minutes are computed (and are nonpositive),
the SLA verdict is still a boolean comparison of that value against the
target, and the value is folded unmodified into the overall average and
into the per-analyst running mean. -/
theorem c9_negative_elapsed_accepted (t : Ticket) (r : Int)
    (hr : t.first_response_at = some r) (hneg : r < t.created_at) :
    differenceInMinutes r t.created_at ≤ 0 ∧
    isWithinSla t .response =
      some (decide (differenceInMinutes r t.created_at ≤
        (getSlaTarget t.priority .response : Int))) ∧
    (overallStats [t]).avgResponseTime =
      ((differenceInMinutes r t.created_at : Int) : ℚ) ∧
    ∀ m : AnalystMetrics,
      (updateMetrics t m).avg_response_time =
        (m.avg_response_time * (m.total_tickets : ℚ) +
            ((differenceInMinutes r t.created_at : Int) : ℚ)) /
          ((m.total_tickets : ℚ) + 1) := by
  refine ⟨?_, ?_, ?_, fun m => updateMetrics_avg_response_of_some t m r hr⟩
  · exact tdiv_nonpos_of_nonpos_of_nonneg _ _ (by omega) (by omega)
  · simp [isWithinSla, hr]
  · simp [overallStats, responseSum, ticketsWithResponse, hr]

/-- Witness for C9 at a concrete ticket responded one hour before its own
creation instant, folded into a concrete running record. -/
theorem c9_witness :
    differenceInMinutes 0 tBackwards.created_at ≤ 0 ∧
    isWithinSla tBackwards .response =
      some (decide (differenceInMinutes 0 tBackwards.created_at ≤
        (getSlaTarget tBackwards.priority .response : Int))) ∧
    (overallStats [tBackwards]).avgResponseTime =
      ((differenceInMinutes 0 tBackwards.created_at : Int) : ℚ) ∧
    (updateMetrics tBackwards mSample).avg_response_time =
      (mSample.avg_response_time * (mSample.total_tickets : ℚ) +
          ((differenceInMinutes 0 tBackwards.created_at : Int) : ℚ)) /
        ((mSample.total_tickets : ℚ) + 1) := by
  have h := c9_negative_elapsed_accepted tBackwards 0 rfl (by decide)
  exact ⟨h.1, h.2.1, h.2.2.1, h.2.2.2 mSample⟩

/-- Claim C2: evaluation of the code at a failing input.  With caller
`alice` in the non-elevated `analyst` role and the analyst-filter parameter
naming `bob`, the `perAnalyst` list still contains an entry for `bob`
computed from `bob`'s ticket: the per-analyst pass runs over every assigned
ticket before any role restriction, so it is not restricted to the
caller's own tickets as the claim states. -/
theorem c2_per_analyst_not_restricted_to_caller :
    ((aggregate [tAlice, tBob] "analyst" "bob" (some "alice")).perAnalyst.map
        (fun m => (m.analyst_id, m.total_tickets))) = [("alice", 1), ("bob", 1)] ∧
    "bob" ≠ "alice" := by
  exact ⟨by decide, by decide⟩

/-- Claim C6: the date-range filter retains exactly the tickets whose
`created_at` lies between 00:00:00.000 UTC of the start day and
23:59:59.999 UTC of the end day, both ends inclusive, comparing only
`created_at`; in particular a ticket sitting exactly on either boundary
instant is retained. -/
theorem c6_creation_window_inclusive (l : List Ticket) (s e : Int) (t : Ticket) :
    (t ∈ filterByCreationWindow l s e ↔
      t ∈ l ∧ s * 86400000 ≤ t.created_at ∧ t.created_at ≤ e * 86400000 + 86399999) ∧
    (t ∈ l → s ≤ e → t.created_at = startOfDayUtcMs s →
      t ∈ filterByCreationWindow l s e) ∧
    (t ∈ l → s ≤ e → t.created_at = endOfDayUtcMs e →
      t ∈ filterByCreationWindow l s e) := by
  have hdays : s ≤ e → s * 86400000 ≤ e * 86400000 := fun hse =>
    mul_le_mul_of_nonneg_right hse (by norm_num)
  refine ⟨?_, ?_, ?_⟩
  · simp [filterByCreationWindow, List.mem_filter, startOfDayUtcMs, endOfDayUtcMs,
      and_assoc]
  · intro hmem hse hc
    simp only [filterByCreationWindow, List.mem_filter, Bool.and_eq_true,
      decide_eq_true_eq]
    refine ⟨hmem, ?_, ?_⟩ <;> simp only [startOfDayUtcMs, endOfDayUtcMs] at hc ⊢ <;>
      [linarith [hdays hse]; linarith [hdays hse]]
  · intro hmem hse hc
    simp only [filterByCreationWindow, List.mem_filter, Bool.and_eq_true,
      decide_eq_true_eq]
    refine ⟨hmem, ?_, ?_⟩ <;> simp only [startOfDayUtcMs, endOfDayUtcMs] at hc ⊢ <;>
      [linarith [hdays hse]; linarith [hdays hse]]

/-- Witness for C6: with a one-day window on day 0, a ticket created at the
exact day-start instant is retained, one created at the exact day-end
instant is retained, and the characterization holds at those inputs. -/
theorem c6_witness :
    (tAlice ∈ filterByCreationWindow [tAlice] 0 0 ↔
      tAlice ∈ [tAlice] ∧ 0 * 86400000 ≤ tAlice.created_at ∧
        tAlice.created_at ≤ 0 * 86400000 + 86399999) ∧
    tAlice ∈ filterByCreationWindow [tAlice] 0 0 := by
  have h := c6_creation_window_inclusive [tAlice] 0 0 tAlice
  exact ⟨h.1, h.2.1 (by decide) (by decide) (by decide)⟩

/-- When no ticket of the list has a first response, the response-minute
`reduce` only ever returns its accumulator. -/
theorem responseSum_foldl_const (l : List Ticket)
    (h : ∀ t ∈ l, t.first_response_at = none) :
    ∀ acc : ℚ, l.foldl (fun acc t =>
      match t.first_response_at with
      | some r => acc + ((differenceInMinutes r t.created_at : Int) : ℚ)
      | none => acc) acc = acc := by
  induction l with
  | nil => intro acc; rfl
  | cons hd tl ih =>
    intro acc
    have hh : hd.first_response_at = none := h hd (by simp)
    simp only [List.foldl_cons, hh]
    exact ih (fun t ht => h t (by simp [ht])) acc

/-- When no ticket of the list is closed, the resolution-minute `reduce`
only ever returns its accumulator. -/
theorem resolutionSum_foldl_const (l : List Ticket)
    (h : ∀ t ∈ l, t.closed_at = none) :
    ∀ acc : ℚ, l.foldl (fun acc t =>
      match t.closed_at with
      | some c => acc + ((differenceInMinutes c t.created_at : Int) : ℚ)
      | none => acc) acc = acc := by
  induction l with
  | nil => intro acc; rfl
  | cons hd tl ih =>
    intro acc
    have hh : hd.closed_at = none := h hd (by simp)
    simp only [List.foldl_cons, hh]
    exact ih (fun t ht => h t (by simp [ht])) acc

/-- Claim C8: on an empty ticket list the whole computation returns all-zero
overall stats, zero compliance percentages and an empty per-analyst list;
and more generally, whenever the aggregated set has no responded (resp.
closed) ticket, the response (resp. resolution) average is 0 — the
`count || 1` guard divides the zero sum by one instead of by zero. -/
theorem c8_empty_aggregate_and_zero_averages (role sel : String)
    (cid : Option String) (l : List Ticket) :
    aggregate [] role sel cid =
      { overall := ⟨0, 0, 0, 0, 0⟩, responseCompliance := 0,
        resolutionCompliance := 0, perAnalyst := [] } ∧
    (ticketsWithResponse l = [] → (overallStats l).avgResponseTime = 0) ∧
    (ticketsResolved l = [] → (overallStats l).avgResolutionTime = 0) := by
  refine ⟨?_, ?_, ?_⟩
  · simp [aggregate, roleFilter, overallStats, responseCompliancePct,
      resolutionCompliancePct, ticketsWithResponse, ticketsWithinResponseSla,
      ticketsResolved, ticketsWithinResolutionSla, responseSum, resolutionSum,
      calculateAnalystMetrics]
  · intro h
    have hn : ∀ t ∈ l, t.first_response_at = none := by
      intro t ht
      have hp := List.filter_eq_nil_iff.1 h t ht
      simpa using hp
    simp [overallStats, ticketsWithResponse] at h ⊢
    simp [responseSum, responseSum_foldl_const l hn 0, h]
  · intro h
    have hn : ∀ t ∈ l, t.closed_at = none := by
      intro t ht
      have hp := List.filter_eq_nil_iff.1 h t ht
      simpa using hp
    simp [overallStats, ticketsResolved] at h ⊢
    simp [resolutionSum, resolutionSum_foldl_const l hn 0, h]

/-- Witness for C8: the empty list, plus a one-ticket list with neither a
first response nor a closure. -/
theorem c8_witness :
    aggregate [] "admin" "all" none =
      { overall := ⟨0, 0, 0, 0, 0⟩, responseCompliance := 0,
        resolutionCompliance := 0, perAnalyst := [] } ∧
    (overallStats [tAlice]).avgResponseTime = 0 ∧
    (overallStats [tAlice]).avgResolutionTime = 0 := by
  have h := c8_empty_aggregate_and_zero_averages "admin" "all" none [tAlice]
  exact ⟨h.1, h.2.1 (by decide), h.2.2 (by decide)⟩

/-- Prepending a ticket without a first response leaves the
response-compliance percentage unchanged. -/
theorem responseCompliancePct_cons_of_none (t : Ticket) (l : List Ticket)
    (h : t.first_response_at = none) :
    responseCompliancePct (t :: l) = responseCompliancePct l := by
  have hw : ticketsWithResponse (t :: l) = ticketsWithResponse l := by
    simp [ticketsWithResponse, List.filter_cons, h]
  simp [responseCompliancePct, ticketsWithinResponseSla, hw]

/-- Prepending an unclosed ticket leaves the resolution-compliance
percentage unchanged. -/
theorem resolutionCompliancePct_cons_of_none (t : Ticket) (l : List Ticket)
    (h : t.closed_at = none) :
    resolutionCompliancePct (t :: l) = resolutionCompliancePct l := by
  have hw : ticketsResolved (t :: l) = ticketsResolved l := by
    simp [ticketsResolved, List.filter_cons, h]
  simp [resolutionCompliancePct, ticketsWithinResolutionSla, hw]

/-- Claim C3: a ticket with a null `first_response_at` gets the `unknown`
verdict (`null`), belongs to neither the numerator nor the denominator list
of the response compliance of any ticket set, and leaves both the overall
and every per-analyst response-compliance percentage unchanged when added;
analogously for a null `closed_at` and resolution compliance. -/
theorem c3_unknown_excluded_from_compliance (t : Ticket) (l : List Ticket) :
    (t.first_response_at = none →
      isWithinSla t .response = none ∧
      (∀ l' : List Ticket,
        t ∉ ticketsWithResponse l' ∧ t ∉ ticketsWithinResponseSla l') ∧
      responseCompliancePct (t :: l) = responseCompliancePct l ∧
      (∀ aid : String,
        responseCompliancePct (analystTicketsOf (t :: l) aid) =
          responseCompliancePct (analystTicketsOf l aid))) ∧
    (t.closed_at = none →
      isWithinSla t .resolution = none ∧
      (∀ l' : List Ticket,
        t ∉ ticketsResolved l' ∧ t ∉ ticketsWithinResolutionSla l') ∧
      resolutionCompliancePct (t :: l) = resolutionCompliancePct l ∧
      (∀ aid : String,
        resolutionCompliancePct (analystTicketsOf (t :: l) aid) =
          resolutionCompliancePct (analystTicketsOf l aid))) := by
  constructor
  · intro h
    refine ⟨by simp [isWithinSla, h], ?_, responseCompliancePct_cons_of_none t l h, ?_⟩
    · intro l'
      constructor
      · intro hmem
        have hp := (List.mem_filter.1 hmem).2
        simp [h] at hp
      · intro hmem
        have hp := (List.mem_filter.1 ((List.mem_filter.1 hmem).1)).2
        simp [h] at hp
    · intro aid
      by_cases hb : (t.assigned_to == some aid) = true
      · have ha : analystTicketsOf (t :: l) aid = t :: analystTicketsOf l aid := by
          simp [analystTicketsOf, List.filter_cons, hb]
        rw [ha, responseCompliancePct_cons_of_none t _ h]
      · have ha : analystTicketsOf (t :: l) aid = analystTicketsOf l aid := by
          have hb' : (t.assigned_to == some aid) = false := by
            cases hx : (t.assigned_to == some aid) with
            | false => rfl
            | true => exact absurd hx hb
          simp [analystTicketsOf, List.filter_cons, hb']
        rw [ha]
  · intro h
    refine ⟨by simp [isWithinSla, h], ?_, resolutionCompliancePct_cons_of_none t l h, ?_⟩
    · intro l'
      constructor
      · intro hmem
        have hp := (List.mem_filter.1 hmem).2
        simp [h] at hp
      · intro hmem
        have hp := (List.mem_filter.1 ((List.mem_filter.1 hmem).1)).2
        simp [h] at hp
    · intro aid
      by_cases hb : (t.assigned_to == some aid) = true
      · have ha : analystTicketsOf (t :: l) aid = t :: analystTicketsOf l aid := by
          simp [analystTicketsOf, List.filter_cons, hb]
        rw [ha, resolutionCompliancePct_cons_of_none t _ h]
      · have ha : analystTicketsOf (t :: l) aid = analystTicketsOf l aid := by
          have hb' : (t.assigned_to == some aid) = false := by
            cases hx : (t.assigned_to == some aid) with
            | false => rfl
            | true => exact absurd hx hb
          simp [analystTicketsOf, List.filter_cons, hb']
        rw [ha]

/-- Witness for C3: a milestone-less ticket of analyst `alice` against a
one-ticket list, instantiating each clause at concrete inputs. -/
theorem c3_witness :
    isWithinSla tAlice .response = none ∧
    tAlice ∉ ticketsWithResponse [tAliceDone] ∧
    tAlice ∉ ticketsWithinResponseSla [tAliceDone] ∧
    responseCompliancePct (tAlice :: [tAliceDone]) = responseCompliancePct [tAliceDone] ∧
    responseCompliancePct (analystTicketsOf (tAlice :: [tAliceDone]) "alice") =
      responseCompliancePct (analystTicketsOf [tAliceDone] "alice") ∧
    isWithinSla tAlice .resolution = none ∧
    tAlice ∉ ticketsResolved [tAliceDone] ∧
    resolutionCompliancePct (tAlice :: [tAliceDone]) =
      resolutionCompliancePct [tAliceDone] := by
  have h := c3_unknown_excluded_from_compliance tAlice [tAliceDone]
  have h1 := h.1 rfl
  have h2 := h.2 rfl
  exact ⟨h1.1, (h1.2.1 [tAliceDone]).1, (h1.2.1 [tAliceDone]).2, h1.2.2.1,
    h1.2.2.2 "alice", h2.1, (h2.2.1 [tAliceDone]).1, h2.2.2.1⟩

/-- For an admin with a specific analyst selected, the visibility predicate
coincides with equality of `assigned_to` and the selection (given that real
analyst ids are never the empty string). -/
theorem roleVisible_admin_selected (sel : String) (cid : Option String)
    (t : Ticket) (hsel : sel ≠ "all") (ht : t.assigned_to ≠ some "") :
    roleVisible "admin" sel cid t = (t.assigned_to == some sel) := by
  cases ha : t.assigned_to with
  | none => simp [roleVisible, strTruthy, ha]
  | some a =>
    have ha' : a ≠ "" := by
      intro hcontra
      exact ht (by rw [ha, hcontra])
    simp [roleVisible, strTruthy, ha, ha', hsel]

/-- For an admin with the sentinel `'all'` selected, the visibility
predicate coincides with `assigned_to` being non-null (given that real
analyst ids are never the empty string). -/
theorem roleVisible_admin_all (cid : Option String) (t : Ticket)
    (ht : t.assigned_to ≠ some "") :
    roleVisible "admin" "all" cid t = t.assigned_to.isSome := by
  cases ha : t.assigned_to with
  | none => simp [roleVisible, strTruthy, ha]
  | some a =>
    have ha' : a ≠ "" := by
      intro hcontra
      exact ht (by rw [ha, hcontra])
    simp [roleVisible, strTruthy, ha, ha']

/-- Claim C7: the set the overall stats are computed over is exactly the
date-filtered tickets with non-null `assigned_to`, restricted to the
selected analyst's tickets when the admin filter is a specific analyst, and
left at all assigned tickets when the admin filter is the sentinel `'all'`
(assuming ticket records carry real, non-empty analyst ids). -/
theorem c7_overall_stats_ticket_set (allTickets : List Ticket) (s e : Int)
    (sel : String) (cid : Option String)
    (hids : ∀ t ∈ allTickets, t.assigned_to ≠ some "") :
    (sel ≠ "all" →
      analyticsOverall allTickets s e "admin" sel cid =
        overallStats ((filterByCreationWindow allTickets s e).filter
          (fun t => t.assigned_to == some sel))) ∧
    analyticsOverall allTickets s e "admin" "all" cid =
      overallStats ((filterByCreationWindow allTickets s e).filter
        (fun t => t.assigned_to.isSome)) := by
  have hsub : ∀ t ∈ filterByCreationWindow allTickets s e, t.assigned_to ≠ some "" :=
    fun t ht => hids t (List.filter_subset' _ ht)
  constructor
  · intro hsel
    unfold analyticsOverall roleFilter
    rw [List.filter_congr
      (fun t ht => roleVisible_admin_selected sel cid t hsel (hsub t ht))]
  · unfold analyticsOverall roleFilter
    rw [List.filter_congr
      (fun t ht => roleVisible_admin_all cid t (hsub t ht))]

/-- Witness for C7 at a concrete two-analyst ticket list on epoch day 0,
with the admin filter naming `alice` and then the sentinel `'all'`. -/
theorem c7_witness :
    analyticsOverall [tAlice, tBob] 0 0 "admin" "alice" none =
      overallStats ((filterByCreationWindow [tAlice, tBob] 0 0).filter
        (fun t => t.assigned_to == some "alice")) ∧
    analyticsOverall [tAlice, tBob] 0 0 "admin" "all" none =
      overallStats ((filterByCreationWindow [tAlice, tBob] 0 0).filter
        (fun t => t.assigned_to.isSome)) := by
  have h := c7_overall_stats_ticket_set [tAlice, tBob] 0 0 "alice" none (by decide)
  exact ⟨h.1 (by decide), h.2⟩

/-- An `updateMetrics` step increases `resolved_tickets` by at most one. -/
theorem updateMetrics_resolved_le (t : Ticket) (m : AnalystMetrics) :
    (updateMetrics t m).resolved_tickets ≤ m.resolved_tickets + 1 := by
  cases hc : t.closed_at with
  | none => rw [updateMetrics_resolved_of_none t m hc]; omega
  | some c => rw [updateMetrics_resolved_of_some t m c hc]

/-- Reduction of `insertTicket` when the ticket is skipped for a falsy
`assigned_to`. -/
theorem insertTicket_skip (acc : List AnalystMetrics) (t : Ticket)
    (h : t.assigned_to = none ∨ t.assigned_to = some "") :
    insertTicket acc t = acc := by
  unfold insertTicket
  rcases h with h | h
  · rw [h]
  · rw [h]; simp

/-- Reduction of `insertTicket` when the analyst has been seen before. -/
theorem insertTicket_eq_update (acc : List AnalystMetrics) (t : Ticket)
    (aid : String) (ha : t.assigned_to = some aid) (he : aid ≠ "")
    (hany : (acc.any (fun m => m.analyst_id == aid)) = true) :
    insertTicket acc t =
      acc.map (fun m => if m.analyst_id == aid then updateMetrics t m else m) := by
  unfold insertTicket
  rw [ha]
  simp [he, hany]

/-- Reduction of `insertTicket` when the analyst is new. -/
theorem insertTicket_eq_append (acc : List AnalystMetrics) (t : Ticket)
    (aid : String) (ha : t.assigned_to = some aid) (he : aid ≠ "")
    (hany : (acc.any (fun m => m.analyst_id == aid)) = false) :
    insertTicket acc t = acc ++ [updateMetrics t (emptyMetrics aid t.full_name)] := by
  unfold insertTicket
  rw [ha]
  simp [he, hany]

/-- One `insertTicket` step keeps the accumulated analyst-id list free of
duplicates: an existing key is updated in place, a new key is appended and
was absent before. -/
theorem insertTicket_ids_nodup (acc : List AnalystMetrics) (t : Ticket)
    (h : (acc.map (fun m => m.analyst_id)).Nodup) :
    ((insertTicket acc t).map (fun m => m.analyst_id)).Nodup := by
  cases ha : t.assigned_to with
  | none => rw [insertTicket_skip acc t (Or.inl ha)]; exact h
  | some aid =>
    by_cases he : aid = ""
    · rw [insertTicket_skip acc t (Or.inr (he ▸ ha))]; exact h
    · by_cases hany : (acc.any (fun m => m.analyst_id == aid)) = true
      · rw [insertTicket_eq_update acc t aid ha he hany]
        have hmap :
            ((acc.map (fun m => if m.analyst_id == aid then updateMetrics t m else m)).map
              (fun m => m.analyst_id)) = acc.map (fun m => m.analyst_id) := by
          rw [List.map_map]
          apply List.map_congr_left
          intro m _
          by_cases hb : m.analyst_id = aid
          · simp [hb, updateMetrics_analyst_id]
          · simp [hb]
        rw [hmap]
        exact h
      · rw [Bool.not_eq_true] at hany
        rw [insertTicket_eq_append acc t aid ha he hany]
        have hnotin : aid ∉ acc.map (fun m => m.analyst_id) := by
          intro hmem
          rcases List.mem_map.1 hmem with ⟨m, hm, hid⟩
          have : (acc.any (fun m => m.analyst_id == aid)) = true :=
            List.any_eq_true.2 ⟨m, hm, by simp [hid]⟩
          rw [hany] at this
          exact Bool.false_ne_true this
        have happ :
            ((acc ++ [updateMetrics t (emptyMetrics aid t.full_name)]).map
              (fun m => m.analyst_id)) =
              acc.map (fun m => m.analyst_id) ++ [aid] := by
          simp [updateMetrics_analyst_id, emptyMetrics]
        rw [happ]
        simp [List.nodup_append, h, hnotin]

/-- Folding any ticket list into a duplicate-free accumulator keeps the
analyst-id list duplicate-free. -/
theorem foldl_insert_ids_nodup (ts : List Ticket) :
    ∀ acc : List AnalystMetrics, (acc.map (fun m => m.analyst_id)).Nodup →
      (((ts.foldl insertTicket acc).map (fun m => m.analyst_id)).Nodup) := by
  induction ts with
  | nil => intro acc h; simpa using h
  | cons hd tl ih =>
    intro acc h
    simp only [List.foldl_cons]
    exact ih _ (insertTicket_ids_nodup acc hd h)

/-- Applying `updateMetrics` to an invariant-satisfying record of the same
analyst keeps the invariant. -/
theorem updateMetrics_inv (L : List Ticket) (t : Ticket) (m : AnalystMetrics)
    (h : MetricsInv L m) : MetricsInv L (updateMetrics t m) := by
  obtain ⟨h1, h2, h3, h4⟩ := h
  have hle := updateMetrics_resolved_le t m
  refine ⟨?_, ?_, ?_, ?_⟩
  · rw [updateMetrics_total]; omega
  · rw [updateMetrics_total]; omega
  · rw [updateMetrics_analyst_id]; exact h3
  · rw [updateMetrics_analyst_id]; exact h4

/-- One `insertTicket` step preserves the per-record invariant. -/
theorem insertTicket_inv (L : List Ticket) (acc : List AnalystMetrics)
    (t : Ticket) (htL : t ∈ L) (hacc : ∀ m ∈ acc, MetricsInv L m) :
    ∀ m ∈ insertTicket acc t, MetricsInv L m := by
  cases ha : t.assigned_to with
  | none => rw [insertTicket_skip acc t (Or.inl ha)]; exact hacc
  | some aid =>
    by_cases he : aid = ""
    · rw [insertTicket_skip acc t (Or.inr (he ▸ ha))]; exact hacc
    · by_cases hany : (acc.any (fun m => m.analyst_id == aid)) = true
      · rw [insertTicket_eq_update acc t aid ha he hany]
        intro m hm
        rcases List.mem_map.1 hm with ⟨m0, hm0, rfl⟩
        by_cases hb : m0.analyst_id = aid
        · have hcond : (m0.analyst_id == aid) = true := by simpa using hb
          rw [if_pos hcond]
          exact updateMetrics_inv L t m0 (hacc m0 hm0)
        · have hcond : ¬((m0.analyst_id == aid) = true) := fun hx => hb (by simpa using hx)
          rw [if_neg hcond]
          exact hacc m0 hm0
      · rw [Bool.not_eq_true] at hany
        rw [insertTicket_eq_append acc t aid ha he hany]
        intro m hm
        rcases List.mem_append.1 hm with hm' | hm'
        · exact hacc m hm'
        · have hm'' : m = updateMetrics t (emptyMetrics aid t.full_name) := by
            simpa using hm'
          subst hm''
          have hle := updateMetrics_resolved_le t (emptyMetrics aid t.full_name)
          refine ⟨?_, ?_, ?_, ?_⟩
          · rw [updateMetrics_total]; omega
          · rw [updateMetrics_total]
            simp only [emptyMetrics] at hle ⊢
            omega
          · rw [updateMetrics_analyst_id]; exact he
          · rw [updateMetrics_analyst_id]
            exact ⟨t, htL, ha⟩

/-- Folding a sublist of `L` into an accumulator of invariant-satisfying
records yields only invariant-satisfying records. -/
theorem foldl_insert_inv (L : List Ticket) :
    ∀ ts : List Ticket, (∀ t ∈ ts, t ∈ L) →
      ∀ acc : List AnalystMetrics, (∀ m ∈ acc, MetricsInv L m) →
        ∀ m ∈ ts.foldl insertTicket acc, MetricsInv L m := by
  intro ts
  induction ts with
  | nil => intro _ acc h; simpa using h
  | cons hd tl ih =>
    intro hsub acc h
    simp only [List.foldl_cons]
    exact ih (fun t ht => hsub t (List.mem_cons_of_mem _ ht)) _
      (insertTicket_inv L acc hd (hsub hd (List.mem_cons_self _ _)) h)

/-- The compliance-percentage pattern always lands in `[0, 100]`. -/
theorem responseCompliancePct_bounds (l : List Ticket) :
    0 ≤ responseCompliancePct l ∧ responseCompliancePct l ≤ 100 := by
  unfold responseCompliancePct
  split
  case isTrue hpos =>
    have hle : (ticketsWithinResponseSla l).length ≤ (ticketsWithResponse l).length := by
      unfold ticketsWithinResponseSla
      exact List.length_filter_le _ _
    have hb : (0 : ℚ) < ((ticketsWithResponse l).length : ℚ) := by exact_mod_cast hpos
    have hdiv : ((ticketsWithinResponseSla l).length : ℚ) /
        ((ticketsWithResponse l).length : ℚ) ≤ 1 := by
      rw [div_le_one hb]
      exact_mod_cast hle
    constructor
    · positivity
    · nlinarith
  case isFalse => norm_num

/-- The resolution-compliance percentage always lands in `[0, 100]`. -/
theorem resolutionCompliancePct_bounds (l : List Ticket) :
    0 ≤ resolutionCompliancePct l ∧ resolutionCompliancePct l ≤ 100 := by
  unfold resolutionCompliancePct
  split
  case isTrue hpos =>
    have hle : (ticketsWithinResolutionSla l).length ≤ (ticketsResolved l).length := by
      unfold ticketsWithinResolutionSla
      exact List.length_filter_le _ _
    have hb : (0 : ℚ) < ((ticketsResolved l).length : ℚ) := by exact_mod_cast hpos
    have hdiv : ((ticketsWithinResolutionSla l).length : ℚ) /
        ((ticketsResolved l).length : ℚ) ≤ 1 := by
      rw [div_le_one hb]
      exact_mod_cast hle
    constructor
    · positivity
    · nlinarith
  case isFalse => norm_num

/-- Claim C10: every per-analyst output entry stems from an actually
assigned ticket (so its `analyst_id` is a non-null id), no analyst appears
twice, `total_tickets` is at least 1, `resolved_tickets` never exceeds
`total_tickets`, and both compliance percentages lie in `[0, 100]`. -/
theorem c10_per_analyst_output_invariants (l : List Ticket) :
    (((calculateAnalystMetrics l).map (fun m => m.analyst_id)).Nodup) ∧
    ∀ m ∈ calculateAnalystMetrics l,
      1 ≤ m.total_tickets ∧
      m.resolved_tickets ≤ m.total_tickets ∧
      (∃ t ∈ l, t.assigned_to = some m.analyst_id) ∧
      0 ≤ m.sla_response_compliance ∧ m.sla_response_compliance ≤ 100 ∧
      0 ≤ m.sla_resolution_compliance ∧ m.sla_resolution_compliance ≤ 100 := by
  constructor
  · have hids : ((calculateAnalystMetrics l).map (fun m => m.analyst_id)) =
        ((l.foldl insertTicket []).map (fun m => m.analyst_id)) := by
      unfold calculateAnalystMetrics
      rw [List.map_map]
      rfl
    rw [hids]
    exact foldl_insert_ids_nodup l [] (by simp)
  · intro m hm
    unfold calculateAnalystMetrics at hm
    rcases List.mem_map.1 hm with ⟨m0, hm0, rfl⟩
    obtain ⟨h1, h2, _, h4⟩ :=
      foldl_insert_inv l l (fun t ht => ht) [] (by simp) m0 hm0
    have hrb := responseCompliancePct_bounds (analystTicketsOf l m0.analyst_id)
    have hsb := resolutionCompliancePct_bounds (analystTicketsOf l m0.analyst_id)
    exact ⟨h1, h2, h4, hrb.1, hrb.2, hsb.1, hsb.2⟩

/-- Witness for C10 at a concrete one-ticket list: the single produced
entry satisfies every bound. -/
theorem c10_witness :
    (((calculateAnalystMetrics [tAlice]).map (fun m => m.analyst_id)).Nodup) ∧
    (1 ≤ (⟨"alice", "Desconhecido", 1, 0, 0, 0, 0, 0⟩ : AnalystMetrics).total_tickets ∧
      (⟨"alice", "Desconhecido", 1, 0, 0, 0, 0, 0⟩ : AnalystMetrics).resolved_tickets ≤
        (⟨"alice", "Desconhecido", 1, 0, 0, 0, 0, 0⟩ : AnalystMetrics).total_tickets ∧
      0 ≤ (⟨"alice", "Desconhecido", 1, 0, 0, 0, 0, 0⟩ : AnalystMetrics).sla_response_compliance ∧
      (⟨"alice", "Desconhecido", 1, 0, 0, 0, 0, 0⟩ : AnalystMetrics).sla_response_compliance ≤ 100) := by
  have h := c10_per_analyst_output_invariants [tAlice]
  have hmem : (⟨"alice", "Desconhecido", 1, 0, 0, 0, 0, 0⟩ : AnalystMetrics) ∈
      calculateAnalystMetrics [tAlice] := by decide
  have h2 := h.2 _ hmem
  exact ⟨h.1, h2.1, h2.2.1, h2.2.2.2.1, h2.2.2.2.2.1⟩

end MeuChapa
